import Mathlib

/-!
Shallow embedding of `src/app.py` (a single-endpoint Flask service that asks
an external chat model for a Selenium locator and unwraps markdown code
fences from the reply).

Python strings are modelled as `List Char`.  `str.strip()` is modelled by
`pyStrip` (trimming the ASCII whitespace characters Python strips; the
claims only involve ASCII text).  Fallible interaction with the external
chat service is modelled by the `ChatOutcome` type: either the service
produced a reply text, or the call raised an exception carrying some
message text.
-/

/-- The backtick character, `Char.ofNat 96`. -/
def btChar : Char := Char.ofNat 96

/-- The apostrophe character, `Char.ofNat 39`. -/
def aposChar : Char := Char.ofNat 39

/-- Python whitespace (ASCII part): the characters removed by `str.strip()`. -/
def pyIsSpace (c : Char) : Bool :=
  c = ' ' || c = '\t' || c = '\n' || c = '\r' || c = Char.ofNat 11 || c = Char.ofNat 12

/-- Drop leading Python whitespace (left part of `str.strip()`). -/
def dropWS (l : List Char) : List Char := l.dropWhile pyIsSpace

/-- Model of Python `str.strip()`: drop whitespace from both ends. -/
def pyStrip (l : List Char) : List Char := ((dropWS l).reverse |> dropWS).reverse

/-- Model of the Python slice `l[i:-j]` (for `j > 0`): drop `i` characters
from the front and `j` from the back. -/
def pySlice (i j : Nat) (l : List Char) : List Char :=
  (l.drop i).take (l.length - (i + j))

/-- Model of Python `s.split(sep, 1)` specialised to `sep = newline`:
the text before the first newline, and (when a newline occurs) the text
after it. -/
def splitOnceNL : List Char → List Char × Option (List Char)
  | [] => ([], none)
  | c :: cs =>
    if c = '\n' then ([], some cs)
    else (c :: (splitOnceNL cs).1, (splitOnceNL cs).2)

/-- Model of Python `str.isalpha()` (ASCII part): non-empty and all letters. -/
def pyIsAlpha (l : List Char) : Bool := !l.isEmpty && l.all Char.isAlpha

/-- The check `any(c in line for c in ["=", "[", "/", "."])` from
`deserialize_locator_string` (same character set the round-trip claim uses). -/
def containsSpecial (l : List Char) : Bool :=
  l.any (fun c => c = '=' || c = '[' || c = '/' || c = '.')

/-- A triple-backtick fence. -/
def tick3 : List Char := [btChar, btChar, btChar]

/-- A single-backtick fence. -/
def tick1 : List Char := [btChar]

/-- Body of the triple-backtick branch of `deserialize_locator_string`
(app.py lines 137-151): slice off the fences, split at the first newline,
drop a likely language-specifier first line, and strip the result. -/
def unwrapTriple (content : List Char) : List Char :=
  let inner := pySlice 3 3 content
  match splitOnceNL inner with
  | (first, some second) =>
    if pyIsAlpha (pyStrip first) && !(containsSpecial (pyStrip first))
        && !((pyStrip second).isEmpty)
    then pyStrip second
    else pyStrip inner
  | (_, none) => pyStrip inner

/-- Embedding of `deserialize_locator_string` (app.py lines 123-155). -/
def deserialize_locator_string (locator_block : List Char) : List Char :=
  let content := pyStrip locator_block
  if tick3.isPrefixOf content && tick3.isSuffixOf content then
    unwrapTriple content
  else if tick1.isPrefixOf content && tick1.isSuffixOf content then
    pyStrip (pySlice 1 1 content)
  else
    content

/-- Outcome of the one call to the external chat service: either the reply
text of the model, or an exception carrying some message text. -/
inductive ChatOutcome where
  | reply : List Char → ChatOutcome
  | failure : List Char → ChatOutcome
deriving DecidableEq

/-- Model of Python `len(s.split(sep))`: one more than the number of
occurrences of the separator. -/
def pySplitCount (sep : Char) (l : List Char) : Nat := l.count sep + 1

/-- The heuristic at app.py line 72: the reply is logged as suspicious when
it is empty or splits into fewer than two parts at the equals sign. -/
def suspiciousReply (g : List Char) : Bool :=
  g.isEmpty || pySplitCount '=' g < 2

/-- Embedding of `generate_selenium_locator` (app.py lines 5-81), abstracted
over the outcome of the `ollama.chat` call.  On a reply the trimmed content
is returned (the suspicious-format heuristic at line 72 only prints a
warning and has no effect on the returned value); on an exception the
function returns `None` (lines 79-81). -/
def generate_selenium_locator (outcome : ChatOutcome) : Option (List Char) :=
  match outcome with
  | ChatOutcome.reply content => some (pyStrip content)
  | ChatOutcome.failure _ => none

/-- The JSON payload of a request: each field is absent (`none`) or a
string. -/
structure Payload where
  html_data : Option (List Char)
  user_prompt : Option (List Char)
  model_name : Option (List Char)
deriving DecidableEq

/-- An inbound HTTP request: whether the body is JSON, and the payload. -/
structure ApiRequest where
  is_json : Bool
  payload : Payload
deriving DecidableEq

/-- A response body: either a locator object or an error object. -/
inductive RespBody where
  | locatorBody : List Char → RespBody
  | errorBody : List Char → RespBody
deriving DecidableEq

/-- An HTTP response: status code and JSON body. -/
structure HttpResponse where
  status : Nat
  body : RespBody
deriving DecidableEq

/-- Python truthiness of `data.get(key)`: falsy when absent or empty. -/
def pyFalsy (o : Option (List Char)) : Bool :=
  match o with
  | none => true
  | some s => s.isEmpty

/-- The error message for non-JSON bodies (app.py line 97). -/
def notJsonMsg : List Char := ("Request must be JSON").toList

/-- The error message for missing fields (app.py line 106). -/
def missingMsg : List Char :=
  ("Missing ").toList ++ [aposChar] ++ ("html_data").toList ++ [aposChar]
    ++ (" or ").toList ++ [aposChar] ++ ("user_prompt").toList ++ [aposChar]
    ++ (" in JSON payload").toList

/-- The generic 500 error message (app.py line 119). -/
def genericErrorMsg : List Char :=
  ("Could not generate locator or an internal error occurred").toList

/-- The default model name at app.py line 103. -/
def defaultModelName : List Char := ("llama3.2:latest").toList

/-- Model name resolution at app.py line 103: `data.get` with a default. -/
def resolvedModelName (p : Payload) : List Char :=
  match p.model_name with
  | some m => m
  | none => defaultModelName

/-- Embedding of the route handler `handle_generate_locator` (app.py lines
87-119), abstracted over the outcome of the external chat call.  The second
component of the result records whether `generate_selenium_locator` (and
hence the external service) was invoked. -/
def handle_generate_locator (req : ApiRequest) (chat : ChatOutcome) :
    HttpResponse × Bool :=
  if !req.is_json then
    (⟨400, RespBody.errorBody notJsonMsg⟩, false)
  else if pyFalsy req.payload.html_data || pyFalsy req.payload.user_prompt then
    (⟨400, RespBody.errorBody missingMsg⟩, false)
  else
    match generate_selenium_locator chat with
    | some locator =>
      if !locator.isEmpty then
        (⟨200, RespBody.locatorBody (deserialize_locator_string locator)⟩, true)
      else
        (⟨500, RespBody.errorBody genericErrorMsg⟩, true)
    | none => (⟨500, RespBody.errorBody genericErrorMsg⟩, true)

/-!
Helper lemmas about `dropWS` and `pyStrip`.
-/

lemma dropWS_cons_pos (c : Char) (l : List Char) (h : pyIsSpace c = true) :
    dropWS (c :: l) = dropWS l := by
  simp [dropWS, List.dropWhile_cons, h]

lemma dropWS_cons_neg (c : Char) (l : List Char) (h : pyIsSpace c = false) :
    dropWS (c :: l) = c :: l := by
  simp [dropWS, List.dropWhile_cons, h]

lemma dropWS_idem (l : List Char) : dropWS (dropWS l) = dropWS l := by
  induction l with
  | nil => rfl
  | cons c t ih =>
    cases h : pyIsSpace c with
    | true => rw [dropWS_cons_pos c t h, ih]
    | false => rw [dropWS_cons_neg c t h, dropWS_cons_neg c t h]

lemma dropWS_head_neg (l : List Char) (c : Char) (t : List Char)
    (h : dropWS l = c :: t) : pyIsSpace c = false := by
  induction l with
  | nil => simp [dropWS] at h
  | cons a l ih =>
    cases ha : pyIsSpace a with
    | true => exact ih (by rw [← dropWS_cons_pos a l ha, h])
    | false =>
      rw [dropWS_cons_neg a l ha] at h
      cases h
      exact ha

lemma exists_append_dropWS (l : List Char) : ∃ t, t ++ dropWS l = l := by
  induction l with
  | nil => exact ⟨[], rfl⟩
  | cons c l ih =>
    cases h : pyIsSpace c with
    | true =>
      obtain ⟨t, ht⟩ := ih
      exact ⟨c :: t, by rw [dropWS_cons_pos c l h, List.cons_append, ht]⟩
    | false => exact ⟨[], by rw [dropWS_cons_neg c l h]; rfl⟩

lemma pyStrip_eq (l : List Char) :
    pyStrip l = (dropWS ((dropWS l).reverse)).reverse := rfl

lemma dropWS_of_append (b t : List Char) (h : dropWS (b ++ t) = b ++ t) :
    dropWS b = b := by
  cases b with
  | nil => rfl
  | cons c bs =>
    have hc : pyIsSpace c = false :=
      dropWS_head_neg (c :: (bs ++ t)) c (bs ++ t) (by simpa using h)
    exact dropWS_cons_neg c bs hc

lemma pyStrip_idem (l : List Char) : pyStrip (pyStrip l) = pyStrip l := by
  obtain ⟨t, ht⟩ := exists_append_dropWS ((dropWS l).reverse)
  have hab : dropWS l = (dropWS ((dropWS l).reverse)).reverse ++ t.reverse := by
    have h2 := congrArg List.reverse ht
    rw [List.reverse_append, List.reverse_reverse] at h2
    exact h2.symm
  have hb : dropWS ((dropWS ((dropWS l).reverse)).reverse)
      = (dropWS ((dropWS l).reverse)).reverse := by
    apply dropWS_of_append _ t.reverse
    rw [← hab]
    exact dropWS_idem l
  rw [pyStrip_eq (pyStrip l), pyStrip_eq l, hb, List.reverse_reverse, dropWS_idem]

lemma pyStrip_cons_ws (c : Char) (l : List Char) (h : pyIsSpace c = true) :
    pyStrip (c :: l) = pyStrip l := by
  rw [pyStrip_eq, pyStrip_eq, dropWS_cons_pos c l h]

lemma dropWS_append (a b : List Char) :
    dropWS (a ++ b) = if dropWS a = [] then dropWS b else dropWS a ++ b := by
  induction a with
  | nil => simp [dropWS]
  | cons c t ih =>
    cases h : pyIsSpace c with
    | true =>
      rw [List.cons_append, dropWS_cons_pos c (t ++ b) h, ih, dropWS_cons_pos c t h]
    | false =>
      rw [List.cons_append, dropWS_cons_neg c (t ++ b) h, dropWS_cons_neg c t h]
      simp

lemma pyStrip_append_ws (l : List Char) (c : Char) (h : pyIsSpace c = true) :
    pyStrip (l ++ [c]) = pyStrip l := by
  rw [pyStrip_eq, pyStrip_eq, dropWS_append l [c]]
  cases he : dropWS l with
  | nil =>
    rw [if_pos rfl, dropWS_cons_pos c [] h]
    rfl
  | cons d t =>
    rw [if_neg (List.cons_ne_nil d t)]
    rw [List.reverse_append, List.reverse_singleton, List.singleton_append,
      dropWS_cons_pos c ((d :: t).reverse) h]

lemma pyStrip_sandwich (c d : Char) (m : List Char)
    (hc : pyIsSpace c = false) (hd : pyIsSpace d = false) :
    pyStrip (c :: (m ++ [d])) = c :: (m ++ [d]) := by
  rw [pyStrip_eq, dropWS_cons_neg c (m ++ [d]) hc]
  have hrev : (c :: (m ++ [d])).reverse = d :: (m.reverse ++ [c]) := by simp
  rw [hrev, dropWS_cons_neg d (m.reverse ++ [c]) hd, ← hrev, List.reverse_reverse]

/-!
Helper lemmas about fences, slices and the newline split.
-/

lemma isPrefixOf_append_self (l m : List Char) : l.isPrefixOf (l ++ m) = true := by
  induction l with
  | nil => simp
  | cons c t ih => simp [List.isPrefixOf_cons₂, ih]

lemma isSuffixOf_append_self (l m : List Char) : l.isSuffixOf (m ++ l) = true := by
  rw [List.isSuffixOf, List.reverse_append]
  exact isPrefixOf_append_self l.reverse m.reverse

lemma t1_of_t3_pre (l : List Char) (h : tick3.isPrefixOf l = true) :
    tick1.isPrefixOf l = true := by
  cases l with
  | nil => simp [tick3, List.isPrefixOf] at h
  | cons c t =>
    simp only [tick3, tick1, List.isPrefixOf, Bool.and_eq_true, beq_iff_eq] at h ⊢
    exact ⟨h.1, trivial⟩

lemma t1_of_t3_suf (l : List Char) (h : tick3.isSuffixOf l = true) :
    tick1.isSuffixOf l = true := by
  rw [List.isSuffixOf] at h ⊢
  rw [show tick1.reverse = tick1 from rfl]
  rw [show tick3.reverse = tick3 from rfl] at h
  exact t1_of_t3_pre l.reverse h

lemma pyStrip_fence3 (m : List Char) :
    pyStrip (tick3 ++ m ++ tick3) = tick3 ++ m ++ tick3 := by
  have hshape : tick3 ++ m ++ tick3
      = btChar :: ((btChar :: btChar :: (m ++ [btChar, btChar])) ++ [btChar]) := by
    simp [tick3]
  rw [hshape]
  exact pyStrip_sandwich btChar btChar _ (by decide) (by decide)

lemma pySlice_fence3 (m : List Char) : pySlice 3 3 (tick3 ++ m ++ tick3) = m := by
  have hdrop : (tick3 ++ m ++ tick3).drop 3 = m ++ tick3 := by
    simp [tick3]
  have hlen : (tick3 ++ m ++ tick3).length - (3 + 3) = m.length := by
    simp [tick3]
  rw [pySlice, hdrop, hlen, List.take_left]

lemma splitOnceNL_mid (a rest : List Char) (h : a.all (fun c => !(c = '\n')) = true) :
    splitOnceNL (a ++ '\n' :: rest) = (a, some rest) := by
  induction a with
  | nil => simp [splitOnceNL]
  | cons c t ih =>
    rw [List.all_cons, Bool.and_eq_true] at h
    have hc : ¬(c = '\n') := by simpa using h.1
    rw [List.cons_append, splitOnceNL, if_neg hc, ih h.2]

/-!
Structural lemmas about `deserialize_locator_string`.
-/

lemma unwrapTriple_stripped (c : List Char) :
    pyStrip (unwrapTriple c) = unwrapTriple c := by
  simp only [unwrapTriple]
  cases hs : splitOnceNL (pySlice 3 3 c) with
  | mk first second =>
    cases second with
    | none => exact pyStrip_idem _
    | some snd =>
      rw [apply_ite pyStrip, pyStrip_idem, pyStrip_idem]

lemma deserialize_stripped (x : List Char) :
    pyStrip (deserialize_locator_string x) = deserialize_locator_string x := by
  simp only [deserialize_locator_string]
  split
  · exact unwrapTriple_stripped _
  · split
    · exact pyStrip_idem _
    · exact pyStrip_idem _

lemma deserialize_pyStrip (x : List Char) :
    deserialize_locator_string (pyStrip x) = deserialize_locator_string x := by
  simp only [deserialize_locator_string, pyStrip_idem]

lemma deserialize_eq_self (y : List Char) (hy : pyStrip y = y)
    (h3 : (tick3.isPrefixOf y && tick3.isSuffixOf y) = false)
    (h1 : (tick1.isPrefixOf y && tick1.isSuffixOf y) = false) :
    deserialize_locator_string y = y := by
  simp only [deserialize_locator_string, hy, h3, h1]
  simp

/-!
Concrete inputs used by witnesses and counterexamples.
-/

/-- A well-formed request payload used as a concrete input. -/
def sampleReq : ApiRequest :=
  ⟨true, ⟨some (("<p>hi</p>").toList), some (("the paragraph").toList), none⟩⟩

/-- The HTML snippet of the end-to-end example. -/
def htmlGo : List Char :=
  ("<button id=").toList ++ [aposChar] ++ ("go").toList ++ [aposChar]
    ++ (">Go</button>").toList

/-- The user prompt of the end-to-end example. -/
def promptGo : List Char := ("the Go button").toList

/-- The expected unwrapped locator of the end-to-end example. -/
def locGo : List Char :=
  ("xpath=//button[@id=").toList ++ [aposChar] ++ ("go").toList ++ [aposChar]
    ++ ("]").toList

/-- The fenced reply of the stubbed external service in the end-to-end
example. -/
def fencedGo : List Char :=
  ("```").toList ++ ['\n'] ++ locGo ++ ['\n'] ++ ("```").toList

/-!
Claim theorems.
-/

/-- C10: every input whose trimmed form is exactly one, two or three
backtick characters is unwrapped to the empty string, because the
overlapping startswith/endswith fence tests treat a lone fence as a
wrapped pair. -/
theorem spec_C10_lone_backticks_unwrap_empty (x : List Char)
    (h : pyStrip x = tick1 ∨ pyStrip x = [btChar, btChar] ∨ pyStrip x = tick3) :
    deserialize_locator_string x = [] := by
  rcases h with h | h | h <;> rw [← deserialize_pyStrip x, h] <;> decide

/-- Witness for C10 at the concrete input of two backticks. -/
theorem spec_C10_witness : deserialize_locator_string (("``").toList) = [] :=
  spec_C10_lone_backticks_unwrap_empty (("``").toList) (by decide)

/-- C9: when the trimmed input neither starts-and-ends with a triple
backtick fence nor starts-and-ends with a single backtick,
`deserialize_locator_string` returns the trimmed input unchanged. -/
theorem spec_C9_no_fence_trim_only (x : List Char)
    (h3 : (tick3.isPrefixOf (pyStrip x) && tick3.isSuffixOf (pyStrip x)) = false)
    (h1 : (tick1.isPrefixOf (pyStrip x) && tick1.isSuffixOf (pyStrip x)) = false) :
    deserialize_locator_string x = pyStrip x := by
  rw [← deserialize_pyStrip x]
  exact deserialize_eq_self (pyStrip x) (pyStrip_idem x) h3 h1

/-- Witness for C9 at the concrete input of the spec example. -/
theorem spec_C9_witness :
    deserialize_locator_string (("xpath=//div").toList) = ("xpath=//div").toList :=
  (spec_C9_no_fence_trim_only (("xpath=//div").toList) (by decide)
    (by decide)).trans (by decide)

/-- Counterexample to C2 as stated: unwrapping twice differs from unwrapping
once on the input of five characters backtick backtick a backtick backtick. -/
theorem spec_C2_counterexample :
    deserialize_locator_string (deserialize_locator_string (("``a``").toList))
      ≠ deserialize_locator_string (("``a``").toList) := by decide

/-- C2 (amended): the unwrapper is idempotent on every input whose unwrapped
result does not both start and end with a backtick character. -/
theorem spec_C2_idempotent_amended (x : List Char)
    (h : (tick1.isPrefixOf (deserialize_locator_string x)
          && tick1.isSuffixOf (deserialize_locator_string x)) = false) :
    deserialize_locator_string (deserialize_locator_string x)
      = deserialize_locator_string x := by
  have h3 : (tick3.isPrefixOf (deserialize_locator_string x)
      && tick3.isSuffixOf (deserialize_locator_string x)) = false := by
    cases h3p : tick3.isPrefixOf (deserialize_locator_string x) with
    | false => simp
    | true =>
      cases h3s : tick3.isSuffixOf (deserialize_locator_string x) with
      | false => simp
      | true =>
        rw [t1_of_t3_pre _ h3p, t1_of_t3_suf _ h3s] at h
        simp at h
  exact deserialize_eq_self (deserialize_locator_string x)
    (deserialize_stripped x) h3 h

/-- Witness for C2 at a concrete unfenced input. -/
theorem spec_C2_witness :
    deserialize_locator_string
        (deserialize_locator_string (("xpath=//a").toList))
      = deserialize_locator_string (("xpath=//a").toList) :=
  spec_C2_idempotent_amended (("xpath=//a").toList) (by decide)

/-- C8: the end-to-end example: a valid JSON request with the Go-button
snippet and a stubbed reply of the fenced locator yields 200 with the bare
locator (the service having been invoked). -/
theorem spec_C8_end_to_end :
    handle_generate_locator ⟨true, ⟨some htmlGo, some promptGo, none⟩⟩
        (ChatOutcome.reply fencedGo)
      = (⟨200, RespBody.locatorBody locGo⟩, true) := by decide

/-- C5: a JSON request whose html_data or user_prompt is absent or empty
yields 400 with the missing-field message, whatever the external service
would have replied, and the service is not invoked. -/
theorem spec_C5_missing_fields (req : ApiRequest) (chat : ChatOutcome)
    (hjson : req.is_json = true)
    (h : (pyFalsy req.payload.html_data || pyFalsy req.payload.user_prompt) = true) :
    handle_generate_locator req chat
      = (⟨400, RespBody.errorBody missingMsg⟩, false) := by
  simp [handle_generate_locator, hjson, h]

/-- Witness for C5 at a concrete request with an empty user_prompt. -/
theorem spec_C5_witness :
    handle_generate_locator ⟨true, ⟨some (("<p>x</p>").toList), some [], none⟩⟩
        (ChatOutcome.reply (("xpath=//p").toList))
      = (⟨400, RespBody.errorBody missingMsg⟩, false) :=
  spec_C5_missing_fields _ _ (by decide) (by decide)

/-- C6: a non-JSON request yields 400 with the not-JSON message for every
payload (so before any field is inspected) and for every service outcome
(so the service is not invoked). -/
theorem spec_C6_not_json (p : Payload) (chat : ChatOutcome) :
    handle_generate_locator ⟨false, p⟩ chat
      = (⟨400, RespBody.errorBody notJsonMsg⟩, false) := by
  simp [handle_generate_locator]

/-- C7: when the external call raises, a valid request yields exactly 500
with the generic error body, for every exception text (so the raw exception
text never appears in the response). -/
theorem spec_C7_failure_generic_500 (req : ApiRequest) (e : List Char)
    (hjson : req.is_json = true)
    (hfields : (pyFalsy req.payload.html_data
        || pyFalsy req.payload.user_prompt) = false) :
    handle_generate_locator req (ChatOutcome.failure e)
      = (⟨500, RespBody.errorBody genericErrorMsg⟩, true) := by
  simp [handle_generate_locator, hjson, hfields, generate_selenium_locator]

/-- Witness for C7 at a concrete request and exception text. -/
theorem spec_C7_witness :
    handle_generate_locator sampleReq
        (ChatOutcome.failure (("connection refused").toList))
      = (⟨500, RespBody.errorBody genericErrorMsg⟩, true) :=
  spec_C7_failure_generic_500 sampleReq _ (by decide) (by decide)

/-- C3: a reply flagged by the suspicious-format heuristic (empty, or with
no equals sign) is still returned trimmed-but-unchanged by
`generate_selenium_locator`, and when such a reply is non-empty after
trimming the endpoint still answers 200: the heuristic never blocks the
success response. -/
theorem spec_C3_heuristic_not_blocking (c : List Char) (req : ApiRequest)
    (_hs : suspiciousReply (pyStrip c) = true)
    (hjson : req.is_json = true)
    (hfields : (pyFalsy req.payload.html_data
        || pyFalsy req.payload.user_prompt) = false) :
    generate_selenium_locator (ChatOutcome.reply c) = some (pyStrip c) ∧
    ((pyStrip c).isEmpty = false →
      handle_generate_locator req (ChatOutcome.reply c)
        = (⟨200, RespBody.locatorBody (deserialize_locator_string (pyStrip c))⟩,
            true)) := by
  refine ⟨rfl, fun hne => ?_⟩
  simp [handle_generate_locator, hjson, hfields, generate_selenium_locator, hne]

/-- Witness for C3 at a concrete equals-free reply. -/
theorem spec_C3_witness :
    generate_selenium_locator (ChatOutcome.reply (("nonsense").toList))
      = some (pyStrip (("nonsense").toList)) ∧
    ((pyStrip (("nonsense").toList)).isEmpty = false →
      handle_generate_locator sampleReq (ChatOutcome.reply (("nonsense").toList))
        = (⟨200, RespBody.locatorBody
              (deserialize_locator_string (pyStrip (("nonsense").toList)))⟩,
            true)) :=
  spec_C3_heuristic_not_blocking _ sampleReq (by decide) (by decide) (by decide)

/-- Counterexample to C1 as stated: a valid request with the two-backtick
reply reaches 200, yet the unwrapped locator in the body is the empty
string. -/
theorem spec_C1_counterexample :
    (handle_generate_locator sampleReq (ChatOutcome.reply (("``").toList))).1
      = ⟨200, RespBody.locatorBody []⟩ := by decide

/-- C1 (amended): whenever the handler answers 200, the raw reply of the
chat service was non-empty after trimming, and the body holds the unwrap of
that trimmed reply; the unwrapped locator itself may be empty. -/
theorem spec_C1_nonempty_before_unwrap (req : ApiRequest) (chat : ChatOutcome)
    (h : (handle_generate_locator req chat).1.status = 200) :
    ∃ c, chat = ChatOutcome.reply c ∧ (pyStrip c).isEmpty = false ∧
      (handle_generate_locator req chat).1.body
        = RespBody.locatorBody (deserialize_locator_string (pyStrip c)) := by
  cases hj : req.is_json with
  | false => simp [handle_generate_locator, hj] at h
  | true =>
    cases hf : (pyFalsy req.payload.html_data || pyFalsy req.payload.user_prompt) with
    | true => simp [handle_generate_locator, hj, hf] at h
    | false =>
      cases chat with
      | failure e =>
        simp [handle_generate_locator, hj, hf, generate_selenium_locator] at h
      | reply c =>
        cases hne : (pyStrip c).isEmpty with
        | true =>
          simp [handle_generate_locator, hj, hf, generate_selenium_locator,
            hne] at h
        | false =>
          exact ⟨c, rfl, hne, by
            simp [handle_generate_locator, hj, hf, generate_selenium_locator,
              hne]⟩

/-- Witness for C1 at a concrete 200-producing request. -/
theorem spec_C1_witness :
    ∃ c, ChatOutcome.reply (("id=main").toList) = ChatOutcome.reply c ∧
      (pyStrip c).isEmpty = false ∧
      (handle_generate_locator sampleReq
          (ChatOutcome.reply (("id=main").toList))).1.body
        = RespBody.locatorBody (deserialize_locator_string (pyStrip c)) :=
  spec_C1_nonempty_before_unwrap sampleReq _ (by decide)

/-!
The fence round trip (claim C4).
-/

/-- The language-tag line used in the round-trip claim. -/
def tagLine : List Char := ("xpath").toList

lemma deserialize_triple_branch (y : List Char) (hy : pyStrip y = y)
    (h3 : (tick3.isPrefixOf y && tick3.isSuffixOf y) = true) :
    deserialize_locator_string y = unwrapTriple y := by
  simp only [deserialize_locator_string, hy, h3]
  simp

lemma deserialize_fence_tag (L : List Char) (hstrip : pyStrip L = L)
    (hne : L.isEmpty = false) :
    deserialize_locator_string
      (tick3 ++ (tagLine ++ ('\n' :: (L ++ ['\n']))) ++ tick3) = L := by
  have h0 := pyStrip_fence3 (tagLine ++ ('\n' :: (L ++ ['\n'])))
  have hpre : tick3.isPrefixOf
      (tick3 ++ (tagLine ++ ('\n' :: (L ++ ['\n']))) ++ tick3) = true := by
    rw [List.append_assoc]
    exact isPrefixOf_append_self _ _
  have hsuf : tick3.isSuffixOf
      (tick3 ++ (tagLine ++ ('\n' :: (L ++ ['\n']))) ++ tick3) = true :=
    isSuffixOf_append_self _ _
  have hL : pyStrip (L ++ ['\n']) = L :=
    (pyStrip_append_ws L '\n' (by decide)).trans hstrip
  rw [deserialize_triple_branch _ h0 (by rw [hpre, hsuf]; rfl)]
  simp only [unwrapTriple, pySlice_fence3]
  rw [splitOnceNL_mid tagLine (L ++ ['\n']) (by decide)]
  simp only [hL, hne, show pyStrip tagLine = tagLine from by decide,
    show pyIsAlpha tagLine = true from by decide,
    show containsSpecial tagLine = false from by decide]
  simp

lemma deserialize_fence_notag (L : List Char) (hstrip : pyStrip L = L) :
    deserialize_locator_string
      (tick3 ++ ('\n' :: (L ++ ['\n'])) ++ tick3) = L := by
  have h0 := pyStrip_fence3 ('\n' :: (L ++ ['\n']))
  have hpre : tick3.isPrefixOf
      (tick3 ++ ('\n' :: (L ++ ['\n'])) ++ tick3) = true := by
    rw [List.append_assoc]
    exact isPrefixOf_append_self _ _
  have hsuf : tick3.isSuffixOf
      (tick3 ++ ('\n' :: (L ++ ['\n'])) ++ tick3) = true :=
    isSuffixOf_append_self _ _
  have hL : pyStrip (L ++ ['\n']) = L :=
    (pyStrip_append_ws L '\n' (by decide)).trans hstrip
  rw [deserialize_triple_branch _ h0 (by rw [hpre, hsuf]; rfl)]
  simp only [unwrapTriple, pySlice_fence3]
  rw [show splitOnceNL ('\n' :: (L ++ ['\n'])) = ([], some (L ++ ['\n'])) from
    by simp [splitOnceNL]]
  simp only [hL, show pyIsAlpha (pyStrip []) = false from by decide]
  simp only [Bool.false_and, Bool.and_eq_true]
  rw [if_neg (by simp)]
  rw [pyStrip_cons_ws '\n' (L ++ ['\n']) (by decide), hL]

/-- Counterexample to C4 as stated: the bare locator text of a space then an
equals sign contains an allowed character, yet the fenced-with-tag round
trip returns it with the leading space stripped. -/
theorem spec_C4_counterexample :
    containsSpecial [' ', '='] = true ∧
    deserialize_locator_string
        (tick3 ++ (tagLine ++ ('\n' :: ([' ', '='] ++ ['\n']))) ++ tick3)
      ≠ [' ', '='] := by decide

/-- C4 (amended): for every locator string L with no leading or trailing
whitespace (so pyStrip L = L) containing at least one of the characters
equals, slash, dot, open-bracket, unwrapping the triple-backtick fencing
with a language-tag line yields L, and unwrapping the fencing without a tag
line also yields L. -/
theorem spec_C4_roundtrip_amended (L : List Char)
    (hstrip : pyStrip L = L) (hc : containsSpecial L = true) :
    deserialize_locator_string
        (tick3 ++ (tagLine ++ ('\n' :: (L ++ ['\n']))) ++ tick3) = L ∧
    deserialize_locator_string
        (tick3 ++ ('\n' :: (L ++ ['\n'])) ++ tick3) = L := by
  have hne : L.isEmpty = false := by
    cases L with
    | nil => simp [containsSpecial] at hc
    | cons a t => rfl
  exact ⟨deserialize_fence_tag L hstrip hne, deserialize_fence_notag L hstrip⟩

/-- Witness for C4 at a concrete locator. -/
theorem spec_C4_witness :
    deserialize_locator_string
        (tick3 ++ (tagLine ++ ('\n' :: ((("css=div.item").toList) ++ ['\n'])))
          ++ tick3) = ("css=div.item").toList ∧
    deserialize_locator_string
        (tick3 ++ ('\n' :: ((("css=div.item").toList) ++ ['\n'])) ++ tick3)
      = ("css=div.item").toList :=
  spec_C4_roundtrip_amended (("css=div.item").toList) (by decide) (by decide)
